import Mathlib

/-!
Shallow embedding of the car-marketplace listing service
(`src/main.py`, `src/schemas.py`).

The HTTP layer (FastAPI) supplies typed form fields; we model the two
endpoint handlers `create_vehicle` (POST /vehicles) and `list_vehicles`
(GET /vehicles) as explicit state-passing functions over a process state
holding the uploads directory and the `"vehicle"` document collection.
The storage adapter (`database.py`: `create_document`, `get_documents`)
is not part of the provided sources and is modelled from the spec.
-/

namespace CarMarket

/-- JSON/BSON-like values appearing in stored documents and responses. -/
inductive Value where
  | null : Value
  | str (s : String) : Value
  | int (n : Int) : Value
  | num (q : ℚ) : Value
  | list (l : List Value) : Value
  | objId (s : String) : Value
  deriving Repr

mutual

/-- Decidable equality for `Value` (hand-written: `Value` nests `List`). -/
def Value.decEq : (a b : Value) → Decidable (a = b)
  | .null, .null => isTrue rfl
  | .null, .str _ => isFalse (fun h => Value.noConfusion h)
  | .null, .int _ => isFalse (fun h => Value.noConfusion h)
  | .null, .num _ => isFalse (fun h => Value.noConfusion h)
  | .null, .list _ => isFalse (fun h => Value.noConfusion h)
  | .null, .objId _ => isFalse (fun h => Value.noConfusion h)
  | .str _, .null => isFalse (fun h => Value.noConfusion h)
  | .str s, .str t =>
    if h : s = t then isTrue (congrArg Value.str h)
    else isFalse (fun hh => h (Value.str.inj hh))
  | .str _, .int _ => isFalse (fun h => Value.noConfusion h)
  | .str _, .num _ => isFalse (fun h => Value.noConfusion h)
  | .str _, .list _ => isFalse (fun h => Value.noConfusion h)
  | .str _, .objId _ => isFalse (fun h => Value.noConfusion h)
  | .int _, .null => isFalse (fun h => Value.noConfusion h)
  | .int _, .str _ => isFalse (fun h => Value.noConfusion h)
  | .int a, .int b =>
    if h : a = b then isTrue (congrArg Value.int h)
    else isFalse (fun hh => h (Value.int.inj hh))
  | .int _, .num _ => isFalse (fun h => Value.noConfusion h)
  | .int _, .list _ => isFalse (fun h => Value.noConfusion h)
  | .int _, .objId _ => isFalse (fun h => Value.noConfusion h)
  | .num _, .null => isFalse (fun h => Value.noConfusion h)
  | .num _, .str _ => isFalse (fun h => Value.noConfusion h)
  | .num _, .int _ => isFalse (fun h => Value.noConfusion h)
  | .num a, .num b =>
    if h : a = b then isTrue (congrArg Value.num h)
    else isFalse (fun hh => h (Value.num.inj hh))
  | .num _, .list _ => isFalse (fun h => Value.noConfusion h)
  | .num _, .objId _ => isFalse (fun h => Value.noConfusion h)
  | .list _, .null => isFalse (fun h => Value.noConfusion h)
  | .list _, .str _ => isFalse (fun h => Value.noConfusion h)
  | .list _, .int _ => isFalse (fun h => Value.noConfusion h)
  | .list _, .num _ => isFalse (fun h => Value.noConfusion h)
  | .list l, .list m =>
    match Value.decEqList l m with
    | isTrue h => isTrue (congrArg Value.list h)
    | isFalse h => isFalse (fun hh => h (Value.list.inj hh))
  | .list _, .objId _ => isFalse (fun h => Value.noConfusion h)
  | .objId _, .null => isFalse (fun h => Value.noConfusion h)
  | .objId _, .str _ => isFalse (fun h => Value.noConfusion h)
  | .objId _, .int _ => isFalse (fun h => Value.noConfusion h)
  | .objId _, .num _ => isFalse (fun h => Value.noConfusion h)
  | .objId _, .list _ => isFalse (fun h => Value.noConfusion h)
  | .objId a, .objId b =>
    if h : a = b then isTrue (congrArg Value.objId h)
    else isFalse (fun hh => h (Value.objId.inj hh))

/-- Decidable equality for lists of `Value`. -/
def Value.decEqList : (l m : List Value) → Decidable (l = m)
  | [], [] => isTrue rfl
  | [], _ :: _ => isFalse (fun h => List.noConfusion h)
  | _ :: _, [] => isFalse (fun h => List.noConfusion h)
  | a :: as, b :: bs =>
    match Value.decEq a b, Value.decEqList as bs with
    | isTrue h1, isTrue h2 => isTrue (by rw [h1, h2])
    | isFalse h1, _ => isFalse (fun hh => h1 (List.cons.inj hh).1)
    | isTrue _, isFalse h2 => isFalse (fun hh => h2 (List.cons.inj hh).2)

end

instance : DecidableEq Value := Value.decEq

/-- A Python dict with string keys, as an association list (first binding wins,
keys are unique in every document we build). -/
abbrev Doc := List (String × Value)

/-- Dictionary lookup: `d[k]` as an `Option`. -/
def Doc.get (d : Doc) (k : String) : Option Value :=
  match d with
  | [] => none
  | (k', v) :: rest => if k' = k then some v else Doc.get rest k

/-- Python `d.get(k, default)`. -/
def Doc.getD (d : Doc) (k : String) (v : Value) : Value :=
  (Doc.get d k).getD v

/-- Python `d.get(k)` (default `None`). -/
def pyGet (d : Doc) (k : String) : Value :=
  Doc.getD d k Value.null

/-- Python truthiness of a value (`if doc.get("_id"):`).  `ObjectId`
instances are always truthy; `None`, empty strings, zero and empty lists
are falsy. -/
def truthy : Value → Bool
  | Value.null => false
  | Value.str s => s != ""
  | Value.int n => n != 0
  | Value.num q => q != 0
  | Value.list l => !l.isEmpty
  | Value.objId _ => true

/-- Python `repr` of a value, used only for elements inside `str(list)`. -/
def pyRepr : Value → String
  | Value.null => "None"
  | Value.str s => String.singleton '\'' ++ s ++ String.singleton '\''
  | Value.int n => toString n
  | Value.num q => toString q
  | Value.list l => "[" ++ String.intercalate ", " (l.map fun v =>
      match v with
      | Value.str s => String.singleton '\'' ++ s ++ String.singleton '\''
      | Value.null => "None"
      | Value.int n => toString n
      | Value.num q => toString q
      | Value.objId s => s
      | Value.list _ => "[...]") ++ "]"
  | Value.objId s => s

/-- Python `str(...)` of a value; `str` of a BSON `ObjectId` is its hex text. -/
def pyStr : Value → String
  | Value.null => "None"
  | Value.str s => s
  | Value.int n => toString n
  | Value.num q => toString q
  | Value.list l => pyRepr (Value.list l)
  | Value.objId s => s

/-- Helper for `rfindIdx`: index (counted from `i`) of the last occurrence
of `ch`, or `-1`. -/
def rfindFrom (ch : Char) : List Char → Nat → Int
  | [], _ => -1
  | c :: rest, i =>
    let r := rfindFrom ch rest (i + 1)
    if r ≥ 0 then r else if c = ch then (i : Int) else -1

/-- Index of the last occurrence of `ch` in `cs`; `-1` when absent
(Python `str.rfind`). -/
def rfindIdx (cs : List Char) (ch : Char) : Int :=
  rfindFrom ch cs 0

/-- The extension component of `os.path.splitext(p)` (POSIX rules): the text
from the last dot onward, provided that dot lies after the last path
separator and the basename is not made of leading dots only. -/
def splitextExt (p : String) : String :=
  let cs := p.data
  let sep := rfindIdx cs '/'
  let dot := rfindIdx cs '.'
  if sep < dot then
    if cs.enum.any (fun ic =>
        decide (sep < (ic.1 : Int)) && decide ((ic.1 : Int) < dot) && (ic.2 ≠ '.')) then
      String.mk (cs.drop dot.toNat)
    else ""
  else ""

/-- The validated listing record (`Vehicle` pydantic model, src/schemas.py). -/
structure Vehicle where
  make : String
  model : String
  year : Int
  price : ℚ
  description : Option String
  image_urls : List String
  deriving Repr, DecidableEq

/-- The per-field error messages pydantic would produce for a candidate
`Vehicle`: `make`/`model`/`year`/`price` are required (`Field(...)`) and
`year` carries `ge=1900, le=2100`, `price` carries `ge=0`; no other
constraint exists (in particular no non-emptiness check on the strings). -/
def vehicleErrors (make model : Option String) (year : Option Int)
    (price : Option ℚ) : List String :=
  (match make with
   | none => ["make: Field required"]
   | some _ => [])
  ++ (match model with
      | none => ["model: Field required"]
      | some _ => [])
  ++ (match year with
      | none => ["year: Field required"]
      | some y =>
        (if y < 1900 then ["year: Input should be greater than or equal to 1900"] else [])
        ++ (if 2100 < y then ["year: Input should be less than or equal to 2100"] else []))
  ++ (match price with
      | none => ["price: Field required"]
      | some p => if p < 0 then ["price: Input should be greater than or equal to 0"] else [])

/-- Constructing `Vehicle(...)` in pydantic (the spec calls this operation
`validate_listing`): either a validated record or a `ValidationError`
carrying the per-field messages.  `description` is optional (default
`None`); `image_urls` defaults to the empty list. -/
def validate_listing (make model : Option String) (year : Option Int)
    (price : Option ℚ) (description : Option String)
    (image_urls : Option (List String)) : Except (List String) Vehicle :=
  match make, model, year, price with
  | some mk, some md, some y, some p =>
    let errs := vehicleErrors (some mk) (some md) (some y) (some p)
    if errs.isEmpty then
      Except.ok ⟨mk, md, y, p, description, image_urls.getD []⟩
    else Except.error errs
  | _, _, _, _ =>
    Except.error (vehicleErrors make model year price)

/-- `vehicle.model_dump()`: the record as a plain mapping, in field order. -/
def vehicleDump (v : Vehicle) : Doc :=
  [("make", Value.str v.make),
   ("model", Value.str v.model),
   ("year", Value.int v.year),
   ("price", Value.num v.price),
   ("description", match v.description with
                   | some d => Value.str d
                   | none => Value.null),
   ("image_urls", Value.list (v.image_urls.map Value.str))]

/-- Process state: the uploads directory (name, bytes, in write order), the
`"vehicle"` collection, and the store's identifier supply. -/
structure State where
  files : List (String × List Nat)
  store : List Doc
  nextId : Nat
  deriving Repr, DecidableEq

/-- Modelled from the spec: the store-generated unique identifier
(`database.py` is not under src/).  Per §3 the identifier is "opaque text
once serialized"; we generate a fresh non-empty token per insert. -/
def oidHex (n : Nat) : String := "oid" ++ Nat.repr n

/-- Modelled from the spec: `create_document(collection, record)` from
`database.py` (not under src/) — "serializes the record to the store's
native document representation and performs a single insert; returns the
store-generated unique identifier" (§4.2).  The stored document is the
record's fields plus the generated `_id`; no `created_at` slot is
populated (§3 allows it to be absent). -/
def create_document (st : State) (v : Vehicle) : String × State :=
  let iid := oidHex st.nextId
  (iid,
   { st with
     store := st.store ++ [vehicleDump v ++ [("_id", Value.objId iid)]],
     nextId := st.nextId + 1 })

/-- Modelled from the spec: `get_documents("vehicle", {}, None)` from
`database.py` (not under src/) — "an empty/absent filter means all
documents"; returns every stored document of the collection in the order
the store yields them (§4.2). -/
def get_documents (st : State) : List Doc := st.store

/-- `serialize_vehicle` (src/main.py, lines 72-82). -/
def serialize_vehicle (doc : Doc) : Doc :=
  [("id", if truthy (pyGet doc "_id") then Value.str (pyStr (pyGet doc "_id"))
          else Value.null),
   ("make", pyGet doc "make"),
   ("model", pyGet doc "model"),
   ("year", pyGet doc "year"),
   ("price", pyGet doc "price"),
   ("description", pyGet doc "description"),
   ("image_urls", Doc.getD doc "image_urls" (Value.list [])),
   ("created_at", pyGet doc "created_at")]

/-- An uploaded multipart file part: client-supplied filename (possibly
absent) and the payload bytes. -/
structure UploadFile where
  filename : Option String
  content : List Nat
  deriving Repr, DecidableEq

/-- Request-scoped environment: the `uuid4().hex` supply (consumed in call
order), whether the k-th file write of the request succeeds and the error
text when it fails, and whether the storage insert / query succeeds. -/
structure Env where
  uuid : Nat → String
  writeOk : Nat → Bool
  writeErrMsg : Nat → String
  insertOk : Bool
  insertErrMsg : String
  listOk : Bool
  listErrMsg : String

/-- The outcome of an endpoint handler: a 200 JSON object, a 200 JSON
array, a raised `HTTPException` (the handler's own structured error
response), or an exception escaping the handler uncaught (here: a
pydantic `ValidationError` from `Vehicle(...)`, which no `try` block in
`create_vehicle` encloses). -/
inductive PyResult where
  | ok (body : Doc) : PyResult
  | okList (body : List Doc) : PyResult
  | httpError (status : Nat) (detail : String) : PyResult
  | validationError (errs : List String) : PyResult
  deriving Repr, DecidableEq

/-- One iteration of the upload loop (src/main.py, lines 106-109), up to
the write: `filename = img.filename or "image-" + uuid4().hex`;
`ext = splitext(filename)[1] or ".jpg"`; `safe_name = uuid4().hex + ext`.
Input `c` is the position in the uuid supply; returns the safe name and
the next supply position (the falsy-filename fallback consumes an extra
uuid). -/
def imageName (env : Env) (c : Nat) (fn : Option String) : String × Nat :=
  let fc : String × Nat :=
    match fn with
    | some f => if f = "" then ("image-" ++ env.uuid c, c + 1) else (f, c)
    | none => ("image-" ++ env.uuid c, c + 1)
  let e := splitextExt fc.1
  let ext := if e = "" then ".jpg" else e
  (env.uuid fc.2 ++ ext, fc.2 + 1)

/-- Result of the upload loop: public paths collected so far, files written
to the uploads directory (in order), and the detail of the raised
`HTTPException` when some write failed (the loop aborts there). -/
structure ImgOutcome where
  urls : List String
  written : List (String × List Nat)
  failure : Option String
  deriving Repr, DecidableEq

/-- The upload loop of `create_vehicle` (src/main.py, lines 105-116):
process attachments in order; for each, compute the safe name, write the
bytes (`i` is the index of this write within the request; failure raises
`HTTPException(500, "Failed to save image: ...")` immediately), and
append `"/uploads/" + safe_name` to the url list. -/
def processImages (env : Env) : Nat → Nat → List UploadFile → ImgOutcome
  | _, _, [] => ⟨[], [], none⟩
  | c, i, img :: rest =>
    let nc := imageName env c img.filename
    if env.writeOk i then
      let o := processImages env nc.2 (i + 1) rest
      ⟨("/uploads/" ++ nc.1) :: o.urls, (nc.1, img.content) :: o.written, o.failure⟩
    else
      ⟨[], [], some ("Failed to save image: " ++ env.writeErrMsg i)⟩

/-- Python `if images:` — the loop body runs only when the optional list is
present and non-empty; iterating over the empty list is the identity, so
we normalise the falsy cases to `[]`. -/
def guardImages (images : Option (List UploadFile)) : List UploadFile :=
  match images with
  | some l => if l.isEmpty then [] else l
  | none => []

/-- `create_vehicle` (src/main.py, lines 94-131): save the images, build
the validated record (`Vehicle(...)` — note: outside any `try` block, so
a `ValidationError` escapes uncaught), then insert it, catching only the
storage failure and returning `{"id": inserted_id, **vehicle.model_dump()}`
on success. -/
def create_vehicle (env : Env) (st : State) (make model : String) (year : Int)
    (price : ℚ) (description : Option String)
    (images : Option (List UploadFile)) : PyResult × State :=
  let o := processImages env 0 0 (guardImages images)
  let st1 := { st with files := st.files ++ o.written }
  match o.failure with
  | some detail => (PyResult.httpError 500 detail, st1)
  | none =>
    match validate_listing (some make) (some model) (some year) (some price)
        description (some o.urls) with
    | Except.error errs => (PyResult.validationError errs, st1)
    | Except.ok v =>
      if env.insertOk then
        let r := create_document st1 v
        (PyResult.ok (("id", Value.str r.1) :: vehicleDump v), r.2)
      else
        (PyResult.httpError 500 env.insertErrMsg, st1)

/-- `list_vehicles` (src/main.py, lines 85-91): query all documents of the
`"vehicle"` collection and serialize each; a storage failure is caught and
re-raised as `HTTPException(500, str(e))`. -/
def list_vehicles (env : Env) (st : State) : PyResult :=
  if env.listOk then
    PyResult.okList ((get_documents st).map serialize_vehicle)
  else
    PyResult.httpError 500 env.listErrMsg

/-- A concrete benign environment for closed evaluations: distinct dotless
hex-like uuid tokens, every file write and storage call succeeds. -/
def env0 : Env :=
  { uuid := fun n => "f00d" ++ Nat.repr n,
    writeOk := fun _ => true,
    writeErrMsg := fun _ => "disk full",
    insertOk := true,
    insertErrMsg := "db down",
    listOk := true,
    listErrMsg := "db down" }

/-- The empty process state: no files, empty store. -/
def st0 : State := ⟨[], [], 0⟩

/-- An environment whose second file write (index 1) fails. -/
def envW : Env := { env0 with writeOk := fun n => n == 0 }

/-- The exact key set of every serialized listing, in output order. -/
def serializedKeys : List String :=
  ["id", "make", "model", "year", "price", "description", "image_urls",
   "created_at"]

/-- The per-attachment generated file names, in order, starting from
position `c` of the uuid supply (read off `imageName`). -/
def expectedNames (env : Env) : Nat → List (Option String) → List String
  | _, [] => []
  | c, fn :: rest =>
    (imageName env c fn).1 :: expectedNames env (imageName env c fn).2 rest

/-! ### Helper lemmas -/

theorem rfindFrom_ge_neg_one (ch : Char) :
    ∀ (cs : List Char) (i : Nat), -1 ≤ rfindFrom ch cs i := by
  intro cs
  induction cs with
  | nil => intro i; simp [rfindFrom]
  | cons c rest ih =>
    intro i
    simp only [rfindFrom]
    split
    · omega
    · split
      · omega
      · omega

theorem rfindFrom_of_not_mem (ch : Char) {cs : List Char}
    (h : ∀ x ∈ cs, x ≠ ch) : ∀ i : Nat, rfindFrom ch cs i = -1 := by
  induction cs with
  | nil => intro i; rfl
  | cons c rest ih =>
    intro i
    have hr : rfindFrom ch rest (i + 1) = -1 :=
      ih (fun x hx => h x (List.mem_cons_of_mem _ hx)) (i + 1)
    have hc : c ≠ ch := h c (List.mem_cons_self _ _)
    simp [rfindFrom, hr, hc]

/-- A string containing no dot has no `splitext` extension. -/
theorem splitextExt_of_no_dot {s : String} (h : ∀ x ∈ s.data, x ≠ '.') :
    splitextExt s = "" := by
  have hdot : rfindIdx s.data '.' = -1 := rfindFrom_of_not_mem '.' h 0
  have hsep : -1 ≤ rfindIdx s.data '/' := rfindFrom_ge_neg_one '/' s.data 0
  have hlt : ¬ (rfindIdx s.data '/' < -1) := by omega
  simp only [splitextExt, hdot]
  rw [if_neg hlt]

/-- Key lookup misses every key absent from the association list. -/
theorem Doc.get_of_not_mem_keys {d : Doc} {k : String}
    (h : k ∉ d.map Prod.fst) : Doc.get d k = none := by
  induction d with
  | nil => rfl
  | cons kv rest ih =>
    simp only [List.map_cons, List.mem_cons] at h
    push_neg at h
    simp only [Doc.get]
    rw [if_neg (fun hh => h.1 hh.symm), ih h.2]

/-! ### C1 -/

/-- C1: Round-trip — on the empty store, create-listing with
make "Toyota", model "Corolla", year 2020, price 15000, description
"clean title" and no attachments, followed by list-listings, yields
exactly one serialized entry whose fields equal the submitted values,
whose `image_urls` is the empty sequence, and whose `id` is a non-empty
text token. -/
theorem c1_round_trip (env : Env) (h1 : env.insertOk = true)
    (h2 : env.listOk = true) :
    ∃ iid : String, iid ≠ "" ∧
      list_vehicles env
          (create_vehicle env st0 "Toyota" "Corolla" 2020 15000
            (some "clean title") none).2
        = PyResult.okList
            [[("id", Value.str iid),
              ("make", Value.str "Toyota"),
              ("model", Value.str "Corolla"),
              ("year", Value.int 2020),
              ("price", Value.num 15000),
              ("description", Value.str "clean title"),
              ("image_urls", Value.list []),
              ("created_at", Value.null)]] := by
  refine ⟨"oid0", by decide, ?_⟩
  have hval : validate_listing (some "Toyota") (some "Corolla") (some 2020)
      (some 15000) (some "clean title") (some []) =
      Except.ok ⟨"Toyota", "Corolla", 2020, 15000, some "clean title", []⟩ := by
    rfl
  simp only [create_vehicle, guardImages, processImages, hval, h1, if_true,
    List.append_nil, List.nil_append, list_vehicles, h2, get_documents,
    create_document]
  decide

/-- Witness for C1 at the concrete benign environment. -/
theorem c1_round_trip_witness :
    env0.insertOk = true ∧ env0.listOk = true ∧
    ∃ iid : String, iid ≠ "" ∧
      list_vehicles env0
          (create_vehicle env0 st0 "Toyota" "Corolla" 2020 15000
            (some "clean title") none).2
        = PyResult.okList
            [[("id", Value.str iid),
              ("make", Value.str "Toyota"),
              ("model", Value.str "Corolla"),
              ("year", Value.int 2020),
              ("price", Value.num 15000),
              ("description", Value.str "clean title"),
              ("image_urls", Value.list []),
              ("created_at", Value.null)]] :=
  ⟨rfl, rfl, c1_round_trip env0 rfl rfl⟩

/-! ### C2 -/

/-- C2 counterexample: the `Vehicle` schema puts no non-emptiness
constraint on `make`/`model` (`src/schemas.py` lines 47-48 only mark them
required), so validation succeeds on an empty `make`, and create-listing
returns a success response for it. -/
theorem c2_counterexample :
    (validate_listing (some "") (some "Corolla") (some 2020) (some 15000)
        none (some [])).isOk = true
    ∧ (create_vehicle env0 st0 "" "Corolla" 2020 15000 none none).1
        = PyResult.ok
            [("id", Value.str "oid0"),
             ("make", Value.str ""),
             ("model", Value.str "Corolla"),
             ("year", Value.int 2020),
             ("price", Value.num 15000),
             ("description", Value.null),
             ("image_urls", Value.list [])] :=
  ⟨by decide, by decide⟩

/-- C2 amended: `make` and `model` are required — validation fails when
either is missing — but the empty string passes validation (no
non-emptiness check exists), so create-listing succeeds on empty names
when year and price are valid. -/
theorem c2_presence_only (mk md : String) (y : Int) (p : ℚ)
    (d : Option String) (u : List String)
    (hy1 : 1900 ≤ y) (hy2 : y ≤ 2100) (hp : 0 ≤ p) :
    (validate_listing (some mk) (some md) (some y) (some p) d (some u)).isOk
        = true
    ∧ (validate_listing none (some md) (some y) (some p) d (some u)).isOk
        = false
    ∧ (validate_listing (some mk) none (some y) (some p) d (some u)).isOk
        = false := by
  have h1 : ¬ (y < 1900) := not_lt.mpr hy1
  have h2 : ¬ (2100 < y) := not_lt.mpr hy2
  have h3 : ¬ (p < 0) := not_lt.mpr hp
  refine ⟨?_, ?_, ?_⟩
  · simp [validate_listing, vehicleErrors, h1, h2, h3, Except.isOk, Except.toBool]
  · simp [validate_listing, Except.isOk, Except.toBool]
  · simp [validate_listing, Except.isOk, Except.toBool]

/-- Witness for C2's amended statement at empty `make`/`model`. -/
theorem c2_presence_only_witness :
    (1900 : Int) ≤ 2020 ∧ (2020 : Int) ≤ 2100 ∧ (0 : ℚ) ≤ 15000 ∧
    ((validate_listing (some "") (some "") (some 2020) (some 15000) none
        (some [])).isOk = true
    ∧ (validate_listing none (some "") (some 2020) (some 15000) none
        (some [])).isOk = false
    ∧ (validate_listing (some "") none (some 2020) (some 15000) none
        (some [])).isOk = false) :=
  ⟨by decide, by decide, by decide,
   c2_presence_only "" "" 2020 15000 none [] (by decide) (by decide)
     (by decide)⟩

/-! ### C3 -/

/-- C3: the year bounds are inclusive — validation fails for every year
strictly below 1900 or strictly above 2100, and succeeds at exactly 1900
and exactly 2100 when the other fields are valid. -/
theorem c3_year_bounds (mk md : String) (y : Int) (p : ℚ)
    (d : Option String) (u : List String) (hp : 0 ≤ p) :
    ((y < 1900 ∨ 2100 < y) →
      (validate_listing (some mk) (some md) (some y) (some p) d
          (some u)).isOk = false)
    ∧ (validate_listing (some mk) (some md) (some 1900) (some p) d
          (some u)).isOk = true
    ∧ (validate_listing (some mk) (some md) (some 2100) (some p) d
          (some u)).isOk = true := by
  have h3 : ¬ (p < 0) := not_lt.mpr hp
  refine ⟨?_, ?_, ?_⟩
  · rintro (hlt | hgt)
    · simp [validate_listing, vehicleErrors, hlt, Except.isOk, Except.toBool]
    · simp [validate_listing, vehicleErrors, hgt, Except.isOk, Except.toBool]
  · simp [validate_listing, vehicleErrors, h3, Except.isOk, Except.toBool]
  · simp [validate_listing, vehicleErrors, h3, Except.isOk, Except.toBool]

/-- Witness for C3 at year 1899 (and the two boundary years). -/
theorem c3_year_bounds_witness :
    (0 : ℚ) ≤ 15000 ∧ ((1899 : Int) < 1900 ∨ 2100 < (1899 : Int)) ∧
    (validate_listing (some "Toyota") (some "Corolla") (some 1899)
        (some 15000) none (some [])).isOk = false ∧
    (validate_listing (some "Toyota") (some "Corolla") (some 1900)
        (some 15000) none (some [])).isOk = true ∧
    (validate_listing (some "Toyota") (some "Corolla") (some 2100)
        (some 15000) none (some [])).isOk = true :=
  ⟨by decide, Or.inl (by decide),
   (c3_year_bounds "Toyota" "Corolla" 1899 15000 none [] (by decide)).1
     (Or.inl (by decide)),
   (c3_year_bounds "Toyota" "Corolla" 1900 15000 none [] (by decide)).2.1,
   (c3_year_bounds "Toyota" "Corolla" 2100 15000 none [] (by decide)).2.2⟩

/-! ### C4 -/

/-- C4: validation-before-storage — the storage insert happens only on the
branch where `Vehicle(...)` succeeded; whenever validation of the
candidate record (submitted fields plus collected image paths) fails, the
`"vehicle"` collection and the identifier supply are left untouched.  The
converse reading is the contrapositive: a changed store implies the
validation branch was taken. -/
theorem c4_validation_before_storage (env : Env) (st : State) (mk md : String)
    (y : Int) (p : ℚ) (d : Option String) (images : Option (List UploadFile))
    (hfail : (validate_listing (some mk) (some md) (some y) (some p) d
        (some (processImages env 0 0 (guardImages images)).urls)).isOk = false) :
    (create_vehicle env st mk md y p d images).2.store = st.store
    ∧ (create_vehicle env st mk md y p d images).2.nextId = st.nextId := by
  unfold create_vehicle
  cases hf : (processImages env 0 0 (guardImages images)).failure with
  | some detail => simp [hf]
  | none =>
    cases hv : validate_listing (some mk) (some md) (some y) (some p) d
        (some (processImages env 0 0 (guardImages images)).urls) with
    | error errs => simp [hf, hv]
    | ok v => rw [hv] at hfail; simp [Except.isOk, Except.toBool] at hfail

/-- Witness for C4: an invalid year (1899) leaves the store unchanged. -/
theorem c4_validation_before_storage_witness :
    (validate_listing (some "Toyota") (some "Corolla") (some 1899)
        (some 15000) none
        (some (processImages env0 0 0 (guardImages none)).urls)).isOk = false
    ∧ (create_vehicle env0 st0 "Toyota" "Corolla" 1899 15000 none none).2.store
        = st0.store :=
  ⟨by decide,
   (c4_validation_before_storage env0 st0 "Toyota" "Corolla" 1899 15000 none
      none (by decide)).1⟩

/-! ### C5 -/

/-- If the j-th file write of the request fails and all earlier ones
succeed, the upload loop aborts with the `HTTPException` detail for write
j, having written exactly the j earlier files. -/
theorem processImages_fail (env : Env) :
    ∀ (imgs : List UploadFile) (c i j : Nat), j < imgs.length →
      env.writeOk (i + j) = false →
      (∀ k, k < j → env.writeOk (i + k) = true) →
      (processImages env c i imgs).failure
          = some ("Failed to save image: " ++ env.writeErrMsg (i + j))
      ∧ (processImages env c i imgs).written.length = j := by
  intro imgs
  induction imgs with
  | nil => intro c i j hj _ _; simp at hj
  | cons img rest ih =>
    intro c i j hj hfail hok
    cases j with
    | zero =>
      have h0 : env.writeOk i = false := by simpa using hfail
      constructor
      · simp [processImages, h0]
      · simp [processImages, h0]
    | succ j' =>
      have h0 : env.writeOk i = true := by
        have := hok 0 (Nat.succ_pos j')
        simpa using this
      have harith : i + 1 + j' = i + (j' + 1) := by omega
      have ihr := ih (imageName env c img.filename).2 (i + 1) j'
        (by simp only [List.length_cons] at hj; omega)
        (by rw [harith]; exact hfail)
        (fun k hk => by
          have h2 := hok (k + 1) (by omega)
          have he : i + (k + 1) = i + 1 + k := by omega
          rw [he] at h2
          exact h2)
      constructor
      · simp [processImages, h0, ihr.1, harith]
      · simp [processImages, h0, ihr.2]

/-- C5: abort on file-write failure — if writing the j-th attachment fails
(and the earlier writes succeeded), create-listing returns the
server-side 500 "Failed to save image" error immediately, the store
receives no insert, and the files written earlier in the same request
remain in the uploads directory (exactly j of them, appended to the
pre-existing ones — no cleanup). -/
theorem c5_abort_on_write_failure (env : Env) (st : State) (mk md : String)
    (y : Int) (p : ℚ) (d : Option String) (images : List UploadFile) (j : Nat)
    (hj : j < images.length) (hfail : env.writeOk j = false)
    (hok : ∀ k, k < j → env.writeOk k = true) :
    (create_vehicle env st mk md y p d (some images)).1
        = PyResult.httpError 500 ("Failed to save image: " ++ env.writeErrMsg j)
    ∧ (create_vehicle env st mk md y p d (some images)).2.store = st.store
    ∧ ∃ w : List (String × List Nat),
        (create_vehicle env st mk md y p d (some images)).2.files
          = st.files ++ w ∧ w.length = j := by
  have hne : images.isEmpty = false := by
    cases images with
    | nil => simp at hj
    | cons a l => rfl
  have hg : guardImages (some images) = images := by simp [guardImages, hne]
  have hpf := processImages_fail env images 0 0 j hj (by simpa using hfail)
      (fun k hk => by simpa using hok k hk)
  have hpf1 : (processImages env 0 0 images).failure
      = some ("Failed to save image: " ++ env.writeErrMsg j) := by
    have := hpf.1
    simpa using this
  have hcv : create_vehicle env st mk md y p d (some images)
      = (PyResult.httpError 500 ("Failed to save image: " ++ env.writeErrMsg j),
         { st with files := st.files ++ (processImages env 0 0 images).written }) := by
    simp only [create_vehicle, hg, hpf1]
  rw [hcv]
  exact ⟨rfl, rfl, ⟨(processImages env 0 0 images).written, rfl, hpf.2⟩⟩

/-- Witness for C5: two attachments, the second write fails. -/
theorem c5_abort_on_write_failure_witness :
    (1 : Nat) < ([⟨some "A.jpg", [1]⟩, ⟨some "B.jpg", [2]⟩] : List UploadFile).length
    ∧ envW.writeOk 1 = false
    ∧ (∀ k, k < 1 → envW.writeOk k = true)
    ∧ (create_vehicle envW st0 "Toyota" "Corolla" 2020 15000 none
          (some [⟨some "A.jpg", [1]⟩, ⟨some "B.jpg", [2]⟩])).1
        = PyResult.httpError 500 ("Failed to save image: " ++ envW.writeErrMsg 1) :=
  ⟨by decide, by decide, by decide,
   (c5_abort_on_write_failure envW st0 "Toyota" "Corolla" 2020 15000 none
      [⟨some "A.jpg", [1]⟩, ⟨some "B.jpg", [2]⟩] 1 (by decide) (by decide)
      (by decide)).1⟩

/-- When every file write succeeds, the upload loop never aborts, its urls
are `"/uploads/" ++ name` for the per-attachment generated names in
order, and the written files pair those names with the attachment bytes
in order. -/
theorem processImages_ok_aux (env : Env) (hw : ∀ i, env.writeOk i = true) :
    ∀ (imgs : List UploadFile) (c i : Nat),
      (processImages env c i imgs).failure = none
      ∧ (processImages env c i imgs).urls
          = (expectedNames env c (imgs.map UploadFile.filename)).map
              (fun n => "/uploads/" ++ n)
      ∧ (processImages env c i imgs).written
          = (expectedNames env c (imgs.map UploadFile.filename)).zip
              (imgs.map UploadFile.content) := by
  intro imgs
  induction imgs with
  | nil => intro c i; exact ⟨rfl, rfl, rfl⟩
  | cons img rest ih =>
    intro c i
    have h0 := hw i
    have ihr := ih (imageName env c img.filename).2 (i + 1)
    refine ⟨?_, ?_, ?_⟩
    · simp [processImages, h0, ihr.1]
    · simp [processImages, h0, ihr.2.1, expectedNames]
    · simp [processImages, h0, ihr.2.2, expectedNames]

/-- There is one generated name per attachment. -/
theorem expectedNames_length (env : Env) :
    ∀ (fns : List (Option String)) (c : Nat),
      (expectedNames env c fns).length = fns.length := by
  intro fns
  induction fns with
  | nil => intro c; rfl
  | cons fn rest ih => intro c; simp [expectedNames, ih]

/-- `if images:` is never a restriction: iterating over the empty list
writes nothing, so the guard is the identity on present lists. -/
theorem guardImages_some (l : List UploadFile) : guardImages (some l) = l := by
  cases l <;> simp [guardImages]

/-! ### C6 -/

/-- A `ValidationError` raised by `Vehicle(...)` always carries at least
one per-field message. -/
theorem validate_listing_error_ne_nil {a b : String} {c : Int} {p : ℚ}
    {d : Option String} {u : Option (List String)} {l : List String}
    (h : validate_listing (some a) (some b) (some c) (some p) d u
        = Except.error l) : l ≠ [] := by
  cases he : (vehicleErrors (some a) (some b) (some c) (some p)).isEmpty with
  | true =>
    simp only [validate_listing, he, if_true] at h
    exact Except.noConfusion h
  | false =>
    simp [validate_listing, he] at h
    intro hnil
    rw [hnil] at h
    rw [h] at he
    simp at he

/-- C6 counterexample: a validation failure (year 1899) is not turned into
the handler's structured 500 response — `Vehicle(...)` sits outside the
`try` block (src/main.py line 118 vs 127), so the `ValidationError`
escapes `create_vehicle` uncaught. -/
theorem c6_counterexample :
    (create_vehicle env0 st0 "Toyota" "Corolla" 1899 15000 none none).1
        = PyResult.validationError
            ["year: Input should be greater than or equal to 1900"] := by
  decide

/-- C6 amended: for every create-listing request whose fields fail schema
validation (file writes succeeding), the operation raises an uncaught
`ValidationError` carrying at least one human-readable per-field message;
it does not return the handler's own structured `HTTPException` response
(only storage and file-write failures are caught there). -/
theorem c6_uncaught_validation (env : Env) (st : State) (mk md : String)
    (y : Int) (p : ℚ) (d : Option String) (images : Option (List UploadFile))
    (hw : ∀ i, env.writeOk i = true)
    (hfail : (validate_listing (some mk) (some md) (some y) (some p) d
        (some (processImages env 0 0 (guardImages images)).urls)).isOk
        = false) :
    ∃ errs, (create_vehicle env st mk md y p d images).1
        = PyResult.validationError errs ∧ errs ≠ [] := by
  have hpo0 : (processImages env 0 0 (guardImages images)).failure = none :=
    (processImages_ok_aux env hw (guardImages images) 0 0).1
  cases hv : validate_listing (some mk) (some md) (some y) (some p) d
      (some (processImages env 0 0 (guardImages images)).urls) with
  | ok v => rw [hv] at hfail; simp [Except.isOk, Except.toBool] at hfail
  | error errs =>
    refine ⟨errs, ?_, validate_listing_error_ne_nil hv⟩
    simp only [create_vehicle, hpo0, hv]

/-- Witness for C6's amended statement at year 1899. -/
theorem c6_uncaught_validation_witness :
    (∀ i, env0.writeOk i = true)
    ∧ (validate_listing (some "Toyota") (some "Corolla") (some 1899)
        (some 15000) none
        (some (processImages env0 0 0 (guardImages none)).urls)).isOk = false
    ∧ ∃ errs,
        (create_vehicle env0 st0 "Toyota" "Corolla" 1899 15000 none none).1
          = PyResult.validationError errs ∧ errs ≠ [] :=
  ⟨fun _ => rfl, by decide,
   c6_uncaught_validation env0 st0 "Toyota" "Corolla" 1899 15000 none none
     (fun _ => rfl) (by decide)⟩

/-! ### C7 -/

/-- C7: safe filename generation — the stored name for an attachment is a
fresh token from the uuid supply with the client extension appended when
the client name has one (else ".jpg"); a falsy client filename costs one
extra token (for the fallback name) and always yields ".jpg"; the stored
name depends on the client name only through its `splitext` extension;
and the upload loop stores the bytes under exactly that name while
appending exactly `"/uploads/" ++ name` to `image_urls`. -/
theorem c7_safe_filename (env : Env) (c : Nat) (f : String) (hf : f ≠ "")
    (hdot : ∀ x ∈ (env.uuid c).data, x ≠ '.') :
    (imageName env c (some f)).1
        = env.uuid c
          ++ (if splitextExt f = "" then ".jpg" else splitextExt f)
    ∧ (imageName env c none).1 = env.uuid (c + 1) ++ ".jpg"
    ∧ (imageName env c (some "")).1 = env.uuid (c + 1) ++ ".jpg"
    ∧ (∀ g : String, g ≠ "" → splitextExt g = splitextExt f →
        imageName env c (some g) = imageName env c (some f))
    ∧ (∀ (bytes : List Nat) (rest : List UploadFile) (i : Nat),
        env.writeOk i = true →
        (processImages env c i (⟨some f, bytes⟩ :: rest)).urls.head?
            = some ("/uploads/" ++ (imageName env c (some f)).1)
        ∧ (processImages env c i (⟨some f, bytes⟩ :: rest)).written.head?
            = some ((imageName env c (some f)).1, bytes)) := by
  have hni : ∀ x ∈ ("image-" ++ env.uuid c).data, x ≠ '.' := by
    intro x hx
    have hx' : x ∈ ("image-").data ++ (env.uuid c).data := hx
    rcases List.mem_append.mp hx' with h | h
    · have h6 : x ∈ ['i', 'm', 'a', 'g', 'e', '-'] := h
      simp only [List.mem_cons, List.not_mem_nil, or_false] at h6
      rcases h6 with h6 | h6 | h6 | h6 | h6 | h6 <;> subst h6 <;> decide
    · exact hdot x h
  have hfall : splitextExt ("image-" ++ env.uuid c) = "" :=
    splitextExt_of_no_dot hni
  refine ⟨?_, ?_, ?_, ?_, ?_⟩
  · simp [imageName, hf]
  · simp [imageName, hfall]
  · simp [imageName, hfall]
  · intro g hg he
    simp [imageName, hg, hf, he]
  · intro bytes rest i hwi
    constructor <;> simp [processImages, hwi]

/-- Witness for C7 at the filename "photo.png". -/
theorem c7_safe_filename_witness :
    ("photo.png" : String) ≠ ""
    ∧ (∀ x ∈ (env0.uuid 0).data, x ≠ '.')
    ∧ (imageName env0 0 (some "photo.png")).1
        = env0.uuid 0
          ++ (if splitextExt "photo.png" = "" then ".jpg"
              else splitextExt "photo.png") :=
  ⟨by decide, by decide,
   (c7_safe_filename env0 0 "photo.png" (by decide) (by decide)).1⟩

/-! ### C8 -/

/-- C8: upload order is preserved — with n attachments and all writes
succeeding (and valid fields so the request succeeds), there is one
generated name per attachment, and the response's `image_urls` is exactly
the ordered list of public paths `"/uploads/" ++ name_i` for the
per-attachment names in upload order. -/
theorem c8_upload_order (env : Env) (st : State) (mk md : String) (y : Int)
    (p : ℚ) (d : Option String) (images : List UploadFile)
    (hw : ∀ i, env.writeOk i = true)
    (hy1 : 1900 ≤ y) (hy2 : y ≤ 2100) (hp : 0 ≤ p)
    (hins : env.insertOk = true) :
    (expectedNames env 0 (images.map UploadFile.filename)).length
        = images.length
    ∧ ∃ body,
        (create_vehicle env st mk md y p d (some images)).1 = PyResult.ok body
        ∧ Doc.get body "image_urls"
            = some (Value.list
                (((expectedNames env 0 (images.map UploadFile.filename)).map
                    (fun n => "/uploads/" ++ n)).map Value.str)) := by
  have hg : guardImages (some images) = images := guardImages_some images
  have hpo := processImages_ok_aux env hw images 0 0
  have h1 : ¬ (y < 1900) := not_lt.mpr hy1
  have h2 : ¬ (2100 < y) := not_lt.mpr hy2
  have h3 : ¬ (p < 0) := not_lt.mpr hp
  have hval : validate_listing (some mk) (some md) (some y) (some p) d
      (some (processImages env 0 0 images).urls)
      = Except.ok ⟨mk, md, y, p, d, (processImages env 0 0 images).urls⟩ := by
    simp [validate_listing, vehicleErrors, h1, h2, h3]
  refine ⟨by rw [expectedNames_length, List.length_map], ?_⟩
  refine ⟨("id", Value.str (oidHex st.nextId))
      :: vehicleDump ⟨mk, md, y, p, d, (processImages env 0 0 images).urls⟩,
    ?_, ?_⟩
  · simp only [create_vehicle, hg, hpo.1, hval, hins, if_true, create_document]
  · simp [Doc.get, vehicleDump, hpo.2.1]

/-- Witness for C8: three attachments A.jpg, B.jpg, C.jpg in order. -/
theorem c8_upload_order_witness :
    (∀ i, env0.writeOk i = true) ∧ (1900 : Int) ≤ 2020
    ∧ (2020 : Int) ≤ 2100 ∧ (0 : ℚ) ≤ 15000 ∧ env0.insertOk = true
    ∧ ((expectedNames env0 0
          (([⟨some "A.jpg", [1]⟩, ⟨some "B.jpg", [2]⟩, ⟨some "C.jpg", [3]⟩]
              : List UploadFile).map UploadFile.filename)).length
        = ([⟨some "A.jpg", [1]⟩, ⟨some "B.jpg", [2]⟩, ⟨some "C.jpg", [3]⟩]
              : List UploadFile).length
      ∧ ∃ body,
          (create_vehicle env0 st0 "Toyota" "Corolla" 2020 15000 none
              (some [⟨some "A.jpg", [1]⟩, ⟨some "B.jpg", [2]⟩,
                ⟨some "C.jpg", [3]⟩])).1 = PyResult.ok body
          ∧ Doc.get body "image_urls"
              = some (Value.list
                  (((expectedNames env0 0
                      (([⟨some "A.jpg", [1]⟩, ⟨some "B.jpg", [2]⟩,
                          ⟨some "C.jpg", [3]⟩] : List UploadFile).map
                        UploadFile.filename)).map
                      (fun n => "/uploads/" ++ n)).map Value.str))) :=
  ⟨fun _ => rfl, by decide, by decide, by decide, rfl,
   c8_upload_order env0 st0 "Toyota" "Corolla" 2020 15000 none
     [⟨some "A.jpg", [1]⟩, ⟨some "B.jpg", [2]⟩, ⟨some "C.jpg", [3]⟩]
     (fun _ => rfl) (by decide) (by decide) (by decide) rfl⟩

/-! ### C9 -/

/-- C9: list serialization contract — list-listings maps every raw stored
document through `serialize_vehicle` (empty store gives the empty array,
not an error), and serialization produces exactly the eight output keys:
the store identifier becomes text (a present `ObjectId` maps to its hex
text, an absent `_id` to null), `make`/`model`/`year`/`price`/
`description`/`created_at` pass through as-is (null when missing),
`image_urls` defaults to the empty list when missing and passes through
otherwise, and every unknown key of the raw document is dropped. -/
theorem c9_list_serialization (env : Env) (st : State)
    (hlist : env.listOk = true) :
    list_vehicles env st = PyResult.okList (st.store.map serialize_vehicle)
    ∧ (st.store = [] → list_vehicles env st = PyResult.okList [])
    ∧ ∀ doc : Doc,
        (serialize_vehicle doc).map Prod.fst = serializedKeys
        ∧ Doc.get (serialize_vehicle doc) "make" = some (pyGet doc "make")
        ∧ Doc.get (serialize_vehicle doc) "model" = some (pyGet doc "model")
        ∧ Doc.get (serialize_vehicle doc) "year" = some (pyGet doc "year")
        ∧ Doc.get (serialize_vehicle doc) "price" = some (pyGet doc "price")
        ∧ Doc.get (serialize_vehicle doc) "description"
            = some (pyGet doc "description")
        ∧ Doc.get (serialize_vehicle doc) "created_at"
            = some (pyGet doc "created_at")
        ∧ (Doc.get doc "image_urls" = none →
            Doc.get (serialize_vehicle doc) "image_urls"
              = some (Value.list []))
        ∧ (∀ v : Value, Doc.get doc "image_urls" = some v →
            Doc.get (serialize_vehicle doc) "image_urls" = some v)
        ∧ (Doc.get doc "_id" = none →
            Doc.get (serialize_vehicle doc) "id" = some Value.null)
        ∧ (∀ s : String, Doc.get doc "_id" = some (Value.objId s) →
            Doc.get (serialize_vehicle doc) "id" = some (Value.str s))
        ∧ (∀ k : String, k ∉ serializedKeys →
            Doc.get (serialize_vehicle doc) k = none) := by
  refine ⟨by simp [list_vehicles, hlist, get_documents], ?_, ?_⟩
  · intro hempty
    simp [list_vehicles, hlist, get_documents, hempty]
  · intro doc
    refine ⟨rfl, ?_, ?_, ?_, ?_, ?_, ?_, ?_, ?_, ?_, ?_, ?_⟩
    · simp [serialize_vehicle, Doc.get]
    · simp [serialize_vehicle, Doc.get]
    · simp [serialize_vehicle, Doc.get]
    · simp [serialize_vehicle, Doc.get]
    · simp [serialize_vehicle, Doc.get]
    · simp [serialize_vehicle, Doc.get]
    · intro h
      simp [serialize_vehicle, Doc.get, Doc.getD, h]
    · intro v h
      simp [serialize_vehicle, Doc.get, Doc.getD, h]
    · intro h
      simp [serialize_vehicle, Doc.get, pyGet, Doc.getD, h, truthy]
    · intro s h
      simp [serialize_vehicle, Doc.get, pyGet, Doc.getD, h, truthy, pyStr]
    · intro k hk
      refine Doc.get_of_not_mem_keys ?_
      have hkeys : (serialize_vehicle doc).map Prod.fst = serializedKeys := rfl
      rw [hkeys]
      exact hk

/-- Witness for C9: the empty store lists as the empty array. -/
theorem c9_list_serialization_witness :
    env0.listOk = true ∧ st0.store = []
    ∧ list_vehicles env0 st0 = PyResult.okList [] :=
  ⟨rfl, rfl, (c9_list_serialization env0 st0 rfl).2.1 rfl⟩

/-! ### C10 -/

/-- C10: identifier serialization edge cases — `serialize_vehicle` yields a
null `id` for every falsy `_id` value (absent, the empty string, zero,
null), yields a text `id` exactly when `_id` is truthy, always emits
exactly the eight fixed keys, fills every missing pass-through field with
null (`image_urls` with the empty list), and is total: no input document
makes it fail. -/
theorem c10_falsy_id_serialization :
    ∀ doc : Doc,
      (serialize_vehicle doc).map Prod.fst = serializedKeys
      ∧ (truthy (pyGet doc "_id") = false →
          Doc.get (serialize_vehicle doc) "id" = some Value.null)
      ∧ (truthy (pyGet doc "_id") = true →
          Doc.get (serialize_vehicle doc) "id"
            = some (Value.str (pyStr (pyGet doc "_id"))))
      ∧ truthy (Value.str "") = false
      ∧ truthy (Value.int 0) = false
      ∧ truthy Value.null = false
      ∧ (Doc.get doc "make" = none →
          Doc.get (serialize_vehicle doc) "make" = some Value.null)
      ∧ (Doc.get doc "model" = none →
          Doc.get (serialize_vehicle doc) "model" = some Value.null)
      ∧ (Doc.get doc "year" = none →
          Doc.get (serialize_vehicle doc) "year" = some Value.null)
      ∧ (Doc.get doc "price" = none →
          Doc.get (serialize_vehicle doc) "price" = some Value.null)
      ∧ (Doc.get doc "description" = none →
          Doc.get (serialize_vehicle doc) "description" = some Value.null)
      ∧ (Doc.get doc "created_at" = none →
          Doc.get (serialize_vehicle doc) "created_at" = some Value.null)
      ∧ (Doc.get doc "image_urls" = none →
          Doc.get (serialize_vehicle doc) "image_urls"
            = some (Value.list [])) := by
  intro doc
  refine ⟨rfl, ?_, ?_, rfl, rfl, rfl, ?_, ?_, ?_, ?_, ?_, ?_, ?_⟩
  · intro h
    simp [serialize_vehicle, Doc.get, h]
  · intro h
    simp [serialize_vehicle, Doc.get, h]
  · intro h
    simp [serialize_vehicle, Doc.get, pyGet, Doc.getD, h]
  · intro h
    simp [serialize_vehicle, Doc.get, pyGet, Doc.getD, h]
  · intro h
    simp [serialize_vehicle, Doc.get, pyGet, Doc.getD, h]
  · intro h
    simp [serialize_vehicle, Doc.get, pyGet, Doc.getD, h]
  · intro h
    simp [serialize_vehicle, Doc.get, pyGet, Doc.getD, h]
  · intro h
    simp [serialize_vehicle, Doc.get, pyGet, Doc.getD, h]
  · intro h
    simp [serialize_vehicle, Doc.get, Doc.getD, h]

/-- Witness for C10: an empty-string `_id` and a zero `_id` both serialize
to a null id. -/
theorem c10_falsy_id_serialization_witness :
    truthy (pyGet [("_id", Value.str "")] "_id") = false
    ∧ Doc.get (serialize_vehicle [("_id", Value.str "")]) "id"
        = some Value.null
    ∧ truthy (pyGet [("_id", Value.int 0)] "_id") = false
    ∧ Doc.get (serialize_vehicle [("_id", Value.int 0)]) "id"
        = some Value.null :=
  ⟨by decide,
   (c10_falsy_id_serialization [("_id", Value.str "")]).2.1 (by decide),
   by decide,
   (c10_falsy_id_serialization [("_id", Value.int 0)]).2.1 (by decide)⟩

end CarMarket
